import Mathlib

/-!
Verification of the HtsServo serial-bus servo driver (src/hts_servo/__init__.py and
src/hts_servo/utility.py) against its specification. The Python code is shallowly
embedded: bytes are naturals below 256, byte strings are lists of naturals, Python
exceptions are an explicit error type, and the serial transport is an explicit list of
frames written (outbound) or a list of bytes available (inbound).
-/

namespace HtsServo

/-- Kinds of Python exception the embedded code can raise.  The spec taxonomy maps
RangeError to the RuntimeError/ValueError raised by the range checks and ProtocolError
to the RuntimeError raised by frame validation. -/
inductive PyError where
  | runtimeError
  | typeError
  | valueError
  | unboundLocalError
  | overflowError
  | indexError
  deriving DecidableEq, Repr

/-- Fixed two-byte frame header 0x55 0x55. -/
def HEADER : List Nat := [0x55, 0x55]

/-- SERVO_BRODCAST from utility.py line 40: the reserved broadcast id 0xfe. -/
def SERVO_BRODCAST : Nat := 0xfe

/-- Python `~s % 256` for a nonnegative int s: bitwise complement (~s = -s-1) reduced
by Python's nonnegative remainder. -/
def checksumByte (s : Nat) : Nat := ((-(s : Int) - 1) % 256).toNat

theorem checksumByte_eq (s : Nat) : checksumByte s = 255 - s % 256 := by
  unfold checksumByte
  omega

theorem checksumByte_lt (s : Nat) : checksumByte s < 256 := by
  rw [checksumByte_eq]
  omega

/-- ServoController.send_command (__init__.py lines 41-66), frame construction and
write: header, destination id byte, length byte `len(params) + 3`, command byte,
params, and the checksum `~sum(buffer[2:]) % 256` over everything after the header.
Each single byte is appended with `.to_bytes(1, "little")`, which raises
OverflowError when the value exceeds 255 (the checksum byte always fits, by
checksumByte_lt).  The connected-state check is assumed passed; the result is the
byte string handed to `handle.write`. -/
def send_command (servo_id : Nat) (command : Nat) (params : List Nat) :
    Except PyError (List Nat) :=
  if servo_id ≥ 256 then .error .overflowError
  else if params.length + 3 ≥ 256 then .error .overflowError
  else if command ≥ 256 then .error .overflowError
  else
    let body := servo_id :: (params.length + 3) :: command :: params
    .ok (HEADER ++ body ++ [checksumByte body.sum])

/-- The set of opcode bytes of the Command enum (utility.py lines 3-31); Python
`Command(x)` raises ValueError outside this set. -/
def isCommandOpcode (n : Nat) : Bool :=
  n ∈ [1, 2, 7, 8, 11, 12, 13, 14, 17, 18, 19, 20, 21, 22, 23, 24, 25, 26, 27, 28,
       29, 30, 31, 32, 33, 34, 35, 36]

/-- ServoController.read_response (__init__.py lines 68-93).  `stream` is the byte
sequence available from the transport; `read n` consumes the next n bytes.  Steps:
read 4 bytes; if the first two are not 0x55 0x55 the raise statement evaluates
`hex(buffer[:2])` on a bytes value, so the call dies with TypeError instead of the
intended RuntimeError; then the destination byte must equal servo_id unless servo_id
is the broadcast id; then `length - 1` further bytes are read, the command byte is
compared against the expected command when one is given, the checksum over
buffer[2:-1] is compared with the last byte, and `(Command(buffer[4]), buffer[5:-1])`
is returned.  Indexing past the bytes actually read raises IndexError. -/
def read_response (servo_id : Nat) (cmdOpt : Option Nat) (stream : List Nat) :
    Except PyError (Nat × List Nat) :=
  if stream.take 2 ≠ HEADER then
    .error .typeError
  else
    match stream with
    | b0 :: b1 :: b2 :: b3 :: rest =>
      if servo_id ≠ SERVO_BRODCAST ∧ b2 ≠ servo_id then .error .runtimeError
      else
        let body := rest.take (b3 - 1)
        match body with
        | [] => .error .indexError
        | cmd :: _ =>
          if cmdOpt.any (fun c => cmd != c) then .error .runtimeError
          else
            let buffer := b0 :: b1 :: b2 :: b3 :: body
            let expected := checksumByte ((buffer.drop 2).dropLast.sum)
            if buffer.getLastD 0 ≠ expected then .error .runtimeError
            else if isCommandOpcode cmd then .ok (cmd, (buffer.drop 5).dropLast)
            else .error .valueError
    | _ => .error .indexError

/-- param2bytes (utility.py lines 42-47).  The body is
`param.to_bytes(len, "little", is_signed)`: it passes three positional arguments, but
`int.to_bytes` accepts `signed` only as a keyword, so every call raises TypeError
before any conversion is attempted, for every width and signedness. -/
def param2bytes (param : Int) (len : Nat) (is_signed : Bool) :
    Except PyError (List Nat) :=
  .error .typeError

/-- Little-endian value of a byte string. -/
def leValue : List Nat → Nat
  | [] => 0
  | b :: bs => b + 256 * leValue bs

/-- bytes2param (utility.py lines 49-53): little-endian `int.from_bytes`, with the
input length as the width; here `signed` is correctly passed by keyword. -/
def bytes2param (byte_arr : List Nat) (is_signed : Bool) : Int :=
  let u := leValue byte_arr
  if is_signed ∧ 2 * u ≥ 256 ^ byte_arr.length then
    (u : Int) - 256 ^ byte_arr.length
  else
    (u : Int)

/-- degree2cmd (utility.py lines 55-61).  Python computes `degree * 1000 / 240` in
float and truncates with `int()`; the arithmetic is modelled exactly over ℚ, and since
the guarded domain is nonnegative, truncation toward zero is the floor. -/
def degree2cmd (degree : ℚ) : Except PyError Int :=
  if degree < 0 ∨ degree > 240 then .error .valueError
  else .ok ⌊degree * 1000 / 240⌋

deriving instance DecidableEq for Except

/-- Outcome of one facade operation: the Python result (or exception) together with
the list of frames written to the transport before returning or raising. -/
structure TxResult where
  result : Except PyError Unit
  written : List (List Nat)
  deriving DecidableEq, Repr

/-- Lift send_command to a TxResult: one frame written on success, nothing on error. -/
def sendTx (servo_id : Nat) (command : Nat) (params : List Nat) : TxResult :=
  match send_command servo_id command params with
  | .ok frame => ⟨.ok (), [frame]⟩
  | .error e => ⟨.error e, []⟩

/-- ServoController.set_move_time (__init__.py lines 95-109).  The two range checks
raise RuntimeError before anything touches the transport; only then are the position
and time encoded (param2bytes, which itself raises TypeError) and the frame sent with
SERVO_MOVE_TIME_WAIT_WRITE = 7 when is_wait and SERVO_MOVE_TIME_WRITE = 1 otherwise. -/
def set_move_time (position : Int) (time : Int) (is_wait : Bool) (servo_id : Nat) :
    TxResult :=
  if position < 0 ∨ position > 1000 then ⟨.error .runtimeError, []⟩
  else if time < 0 ∨ time > 30000 then ⟨.error .runtimeError, []⟩
  else
    match param2bytes position 2 false with
    | .error e => ⟨.error e, []⟩
    | .ok posB =>
      match param2bytes time 2 false with
      | .error e => ⟨.error e, []⟩
      | .ok timeB => sendTx servo_id (if is_wait then 7 else 1) (posB ++ timeB)

/-- ServoController.set_motor_mode (__init__.py lines 263-275).  speed = none sends
SERVO_OR_MOTOR_MODE_WRITE = 29 with payload 00 00 00 00.  With a speed present the
range check raises ValueError outside [-1000, 1000]; otherwise the source encodes the
speed with `param2bytes(speed, is_signed=True)` (which raises TypeError) and would
send it under the opcode SERVO_TEMP_MAX_LIMIT_WRITE = 24 written in the source, not
SERVO_OR_MOTOR_MODE_WRITE = 29. -/
def set_motor_mode (speed : Option Int) (servo_id : Nat) : TxResult :=
  match speed with
  | none => sendTx servo_id 29 [0x00, 0x00, 0x00, 0x00]
  | some s =>
    if s < -1000 ∨ s > 1000 then ⟨.error .valueError, []⟩
    else
      match param2bytes s 2 true with
      | .error e => ⟨.error e, []⟩
      | .ok sB => sendTx servo_id 24 ([0x01, 0x00] ++ sB)

/-- ServoController.set_led_error (__init__.py lines 319-331).  The source reads
`status += 1 if temp_warn else 0` without ever assigning `status` first; `status` is a
local by Python scoping, so every call raises UnboundLocalError before any bitmask is
formed or any frame is sent. -/
def set_led_error (temp_warn vin_warn stick_warn : Bool) (servo_id : Nat) : TxResult :=
  ⟨.error .unboundLocalError, []⟩

/-- ServoController.set_id (__init__.py lines 138-150).  The range check is
`if id < 0 or id > 253`, comparing the Python builtin function `id` (not target_id)
with an int, which raises TypeError on every call — before the broadcast warning and
before any frame is written.  Were the check passed, the send uses the opcode
SERVO_MOVE_STOP = 12 written in the source, not SERVO_ID_WRITE = 13. -/
def set_id (target_id : Int) (servo_id : Nat) : TxResult :=
  ⟨.error .typeError, []⟩

/-- Connection state of the singleton ServoController: the class-level handle
(__init__.py line 13) plus, for accounting, the multiset of transport handles
currently open and a counter supplying fresh handles. -/
structure ConnState where
  handle : Option Nat
  openHandles : List Nat
  nextHandle : Nat
  deriving DecidableEq, Repr

/-- ServoController.connect (__init__.py lines 24-31): when a handle already exists it
only prints a notice and leaves the state untouched; otherwise it opens a fresh
transport and stores it. -/
def connect (s : ConnState) : ConnState :=
  match s.handle with
  | some _ => s
  | none => ⟨some s.nextHandle, s.nextHandle :: s.openHandles, s.nextHandle + 1⟩

/-- ServoController.disconnect (__init__.py lines 33-39): check_handle raises
RuntimeError when unconnected; otherwise the transport is closed and the handle
cleared. -/
def disconnect (s : ConnState) : Except PyError ConnState :=
  match s.handle with
  | none => .error .runtimeError
  | some h => .ok ⟨none, s.openHandles.erase h, s.nextHandle⟩

/-- A lifecycle call in a connect/disconnect sequence. -/
inductive ConnOp where
  | connect
  | disconnect
  deriving DecidableEq, Repr

/-- Run one lifecycle call; a raised RuntimeError leaves the state unchanged. -/
def runOp (s : ConnState) : ConnOp → ConnState
  | .connect => connect s
  | .disconnect =>
    match disconnect s with
    | .ok t => t
    | .error _ => s

/-- Run a sequence of lifecycle calls. -/
def runOps (s : ConnState) (ops : List ConnOp) : ConnState :=
  List.foldl runOp s ops

/-- The connection invariant: the open transports are exactly the one held by the
class-level handle, if any. -/
def connInv (s : ConnState) : Prop :=
  s.openHandles = (match s.handle with | some h => [h] | none => [])

theorem isCommandOpcode_lt {cmd : Nat} (h : isCommandOpcode cmd = true) : cmd < 256 := by
  simp only [isCommandOpcode, List.mem_cons, List.not_mem_nil, or_false,
    decide_eq_true_eq] at h
  omega

theorem send_command_eq (servo_id cmd : Nat) (payload : List Nat)
    (hid : servo_id < 256) (hcmd : cmd < 256) (hlen : payload.length ≤ 252) :
    send_command servo_id cmd payload =
      .ok ((0x55 :: 0x55 :: servo_id :: (payload.length + 3) :: cmd :: payload) ++
        [checksumByte (servo_id + ((payload.length + 3) + (cmd + payload.sum)))]) := by
  unfold send_command
  rw [if_neg (by omega), if_neg (by omega), if_neg (by omega)]
  simp [HEADER]

theorem read_response_ok (servo_id cmd : Nat) (payload : List Nat) (ck : Nat)
    (hck : ck = checksumByte ((servo_id :: (payload.length + 3) :: cmd :: payload).sum))
    (hcmd : isCommandOpcode cmd = true) :
    read_response servo_id (some cmd)
      (0x55 :: 0x55 :: servo_id :: (payload.length + 3) :: cmd :: (payload ++ [ck])) =
      .ok (cmd, payload) := by
  have hdrop2 : List.drop 2
      (85 :: 85 :: servo_id :: (payload.length + 3) :: cmd :: (payload ++ [ck])) =
      servo_id :: (payload.length + 3) :: cmd :: (payload ++ [ck]) := rfl
  have hdrop5 : List.drop 5
      (85 :: 85 :: servo_id :: (payload.length + 3) :: cmd :: (payload ++ [ck])) =
      payload ++ [ck] := rfl
  have hdl : (servo_id :: (payload.length + 3) :: cmd :: (payload ++ [ck])).dropLast =
      servo_id :: (payload.length + 3) :: cmd :: payload := by
    simp only [← List.cons_append, List.dropLast_concat]
  have hlast : (85 :: 85 :: servo_id :: (payload.length + 3) :: cmd ::
      (payload ++ [ck])).getLastD 0 = ck := by
    simp only [← List.cons_append, List.getLastD_concat]
  unfold read_response
  rw [if_neg (by simp [HEADER])]
  dsimp only
  rw [if_neg (by simp)]
  have h31 : payload.length + 3 - 1 = (payload.length + 1) + 1 := rfl
  have htake : (payload ++ [ck]).take (payload.length + 1) = payload ++ [ck] :=
    List.take_of_length_le (by simp)
  simp only [h31, List.take_succ_cons, htake]
  simp only [Option.any_some, bne_self_eq_false, Bool.false_eq_true, if_false]
  rw [if_neg (by
    simp only [ne_eq, not_not]
    rw [hlast, hdrop2, hdl, hck]), if_pos hcmd]
  rw [hdrop5, List.dropLast_concat]

/-- C1: for every destination ServoId, every Command opcode, and every payload of at
most 252 bytes, feeding the frame built by send_command into read_response with the
same expected destination and expected command returns exactly that
(command, payload) pair. -/
theorem send_read_roundtrip (servo_id cmd : Nat) (payload : List Nat)
    (hid : servo_id ≤ 254) (hcmd : isCommandOpcode cmd = true)
    (hlen : payload.length ≤ 252) (hbytes : ∀ b ∈ payload, b < 256) :
    (send_command servo_id cmd payload).bind (read_response servo_id (some cmd)) =
      .ok (cmd, payload) := by
  have hc : cmd < 256 := isCommandOpcode_lt hcmd
  rw [send_command_eq servo_id cmd payload (by omega) hc hlen]
  show read_response servo_id (some cmd) _ = _
  simp only [List.cons_append, List.nil_append]
  exact read_response_ok servo_id cmd payload _ (by simp [List.sum_cons]) hcmd

/-- Witness for send_read_roundtrip at servo id 1, command 1 (MOVE_TIME_WRITE), and a
concrete 4-byte payload. -/
theorem send_read_roundtrip_witness :
    (send_command 1 1 [0x10, 0x27, 0xE8, 0x03]).bind (read_response 1 (some 1)) =
      .ok (1, [0x10, 0x27, 0xE8, 0x03]) :=
  send_read_roundtrip 1 1 [0x10, 0x27, 0xE8, 0x03] (by decide) (by decide) (by decide)
    (by decide)

/-- C2: the frame emitted by send_command is exactly 0x55, 0x55, the destination, the
length byte len(payload)+3, the command opcode, the payload, and a final checksum byte
equal to the bitwise complement (~s = -s-1 in two's complement) of the sum of all
bytes from the destination byte through the last payload byte, taken mod 256. -/
theorem send_command_frame (servo_id cmd : Nat) (payload : List Nat)
    (hid : servo_id ≤ 254) (hcmd : cmd < 256) (hlen : payload.length ≤ 252) :
    send_command servo_id cmd payload =
      .ok ([0x55, 0x55, servo_id, payload.length + 3, cmd] ++ payload ++
        [((-((servo_id + (payload.length + 3) + cmd + payload.sum : Nat) : Int) - 1) %
          256).toNat]) := by
  rw [send_command_eq servo_id cmd payload (by omega) hcmd hlen]
  have hsum : checksumByte (servo_id + ((payload.length + 3) + (cmd + payload.sum))) =
      ((-((servo_id + (payload.length + 3) + cmd + payload.sum : Nat) : Int) - 1) %
        256).toNat := by
    unfold checksumByte
    have h : servo_id + ((payload.length + 3) + (cmd + payload.sum)) =
        servo_id + (payload.length + 3) + cmd + payload.sum := by omega
    rw [h]
  rw [hsum]
  simp

/-- Witness for send_command_frame at servo id 1, opcode 1, and a 4-byte payload. -/
theorem send_command_frame_witness :
    send_command 1 1 [0x10, 0x27, 0xE8, 0x03] =
      .ok [0x55, 0x55, 1, 7, 1, 0x10, 0x27, 0xE8, 0x03, 212] := by
  rw [send_command_frame 1 1 [0x10, 0x27, 0xE8, 0x03] (by decide) (by decide)
    (by decide)]
  decide

/-- C3 (code bug): on a stream whose first two bytes are 0x55 0x56, the source tries
to raise the RuntimeError that models ProtocolError, but the raise statement itself
evaluates `hex(buffer[:2])` on a bytes value, so the call instead dies with TypeError;
on a correctly headed frame whose checksum byte is tampered with, read_response does
raise the RuntimeError that models ProtocolError. -/
theorem read_response_bad_header_bad_checksum :
    read_response 1 none [0x55, 0x56, 1, 3, 12, 0xEF] = .error .typeError ∧
    read_response 1 none [0x55, 0x55, 1, 3, 12, 0x00] = .error .runtimeError := by
  constructor <;> decide

/-- C4: when position is outside [0, 1000] or time is outside [0, 30000],
set_move_time raises the RuntimeError modelling RangeError and performs no transport
write at all. -/
theorem set_move_time_range_error (position time : Int) (is_wait : Bool)
    (servo_id : Nat) (h : position < 0 ∨ position > 1000 ∨ time < 0 ∨ time > 30000) :
    set_move_time position time is_wait servo_id = ⟨.error .runtimeError, []⟩ := by
  unfold set_move_time
  by_cases hp : position < 0 ∨ position > 1000
  · rw [if_pos hp]
  · rw [if_neg hp, if_pos (by omega)]

/-- Witness for set_move_time_range_error at position 1001, time 1000: RangeError and
zero frames written. -/
theorem set_move_time_range_error_witness :
    set_move_time 1001 1000 false 254 = ⟨.error .runtimeError, []⟩ :=
  set_move_time_range_error 1001 1000 false 254 (by norm_num)

/-- C5 counterexample: degree2cmd 100 returns 416, while round(100 * 1000 / 240) =
round(416.666...) is 417 — the source truncates with int() instead of rounding, so
the claimed round() formula fails at degree 100. -/
theorem degree2cmd_not_round :
    degree2cmd 100 = .ok 416 ∧ round ((100 : ℚ) * 1000 / 240) = 417 := by
  constructor
  · unfold degree2cmd
    rw [if_neg (by norm_num)]
    norm_num
  · rw [round_eq]
    norm_num

/-- C5 amended: on [0, 240] degree2cmd equals the truncation ⌊degree * 1000 / 240⌋
(int() truncates toward zero, which is the floor on this nonnegative domain), with
degree2cmd 0 = 0 and degree2cmd 240 = 1000, and outside [0, 240] it raises the
ValueError modelling RangeError. -/
theorem degree2cmd_spec (degree : ℚ) :
    degree2cmd 0 = .ok 0 ∧ degree2cmd 240 = .ok 1000 ∧
    (0 ≤ degree → degree ≤ 240 → degree2cmd degree = .ok ⌊degree * 1000 / 240⌋) ∧
    ((degree < 0 ∨ degree > 240) → degree2cmd degree = .error .valueError) := by
  refine ⟨?_, ?_, ?_, ?_⟩
  · unfold degree2cmd
    rw [if_neg (by norm_num)]
    norm_num
  · unfold degree2cmd
    rw [if_neg (by norm_num)]
    norm_num
  · intro h1 h2
    unfold degree2cmd
    rw [if_neg (by push_neg; exact ⟨h1, h2⟩)]
  · intro h
    unfold degree2cmd
    rw [if_pos h]

/-- Witness for degree2cmd_spec at the in-range degree 100 and the out-of-range
degree 300. -/
theorem degree2cmd_spec_witness :
    degree2cmd 100 = .ok ⌊(100 : ℚ) * 1000 / 240⌋ ∧
    degree2cmd 300 = .error .valueError :=
  ⟨(degree2cmd_spec 100).2.2.1 (by norm_num) (by norm_num),
   (degree2cmd_spec 300).2.2.2 (Or.inr (by norm_num))⟩

/-- C6 (code bug): with the in-range speed 100, set_motor_mode raises TypeError
inside param2bytes (is_signed is passed positionally to int.to_bytes) and writes
nothing — and the opcode written in the source for this branch is
SERVO_TEMP_MAX_LIMIT_WRITE = 24, not SERVO_OR_MOTOR_MODE_WRITE = 29.  The
out-of-range speed 2000 does raise the ValueError modelling RangeError before any
transmission, as claimed. -/
theorem set_motor_mode_bug :
    set_motor_mode (some 100) 1 = ⟨.error .typeError, []⟩ ∧
    set_motor_mode (some 2000) 1 = ⟨.error .valueError, []⟩ := by
  constructor <;> decide

/-- C7 (code bug): set_led_error raises UnboundLocalError on every call — here at
(false, false, false) broadcast — because `status` is read before it is ever
assigned; no bitmask frame is transmitted. -/
theorem set_led_error_bug :
    set_led_error false false false 254 = ⟨.error .unboundLocalError, []⟩ := by
  decide

/-- C8 (code bug): set_id with target id 5 and the broadcast destination raises
TypeError — the range check compares the Python builtin function `id` with an int —
so no warning is issued and no ID_WRITE frame is transmitted. -/
theorem set_id_bug :
    set_id 5 SERVO_BRODCAST = ⟨.error .typeError, []⟩ := by
  decide

/-- C9 (code bug): param2bytes raises TypeError on every call — in particular at
(-1000, width 2, signed) — because is_signed is passed positionally to int.to_bytes,
whose signed parameter is keyword-only; so the encode/decode round trip never starts.
The decoder alone is fine: bytes2param on 0x18 0xFC signed yields -1000, the little
endian encoding the encoder was meant to produce. -/
theorem param2bytes_roundtrip_bug :
    param2bytes (-1000) 2 true = .error .typeError ∧
    bytes2param [0x18, 0xFC] true = -1000 := by
  constructor <;> decide

/-- C10: connect on an already-connected controller leaves the handle unchanged and
opens no second transport, and every connect/disconnect sequence preserves the
invariant that the open transports are exactly the one held handle — hence at most
one transport is open at any time. -/
theorem connect_idempotent_single_open (s : ConnState) (ops : List ConnOp)
    (hinv : connInv s) :
    (s.handle ≠ none → connect s = s) ∧
    connInv (runOps s ops) ∧ (runOps s ops).openHandles.length ≤ 1 := by
  have step : ∀ t : ConnState, connInv t → ∀ op : ConnOp, connInv (runOp t op) := by
    intro t ht op
    cases op with
    | connect =>
      show connInv (connect t)
      unfold connInv at ht ⊢
      unfold connect
      cases hh : t.handle with
      | none => simp [hh] at ht; simp [ht]
      | some x => simp [hh] at ht; simpa [hh] using ht
    | disconnect =>
      show connInv (runOp t .disconnect)
      unfold runOp disconnect
      unfold connInv at ht ⊢
      cases hh : t.handle with
      | none => simpa [hh] using ht
      | some x => simp [hh] at ht; simp [ht]
  have hseq : ∀ l : List ConnOp, ∀ t : ConnState, connInv t → connInv (runOps t l) := by
    intro l
    induction l with
    | nil => intro t ht; exact ht
    | cons op rest ih => intro t ht; exact ih (runOp t op) (step t ht op)
  refine ⟨?_, hseq ops s hinv, ?_⟩
  · intro hh
    unfold connect
    cases hhh : s.handle with
    | none => exact absurd hhh hh
    | some x => rfl
  · have hfin := hseq ops s hinv
    unfold connInv at hfin
    rw [hfin]
    cases (runOps s ops).handle <;> simp

/-- Witness for connect_idempotent_single_open at the connected state holding handle
0 and the call sequence connect, connect, disconnect. -/
theorem connect_idempotent_single_open_witness :
    ((⟨some 0, [0], 1⟩ : ConnState).handle ≠ none →
      connect ⟨some 0, [0], 1⟩ = ⟨some 0, [0], 1⟩) ∧
    connInv (runOps ⟨some 0, [0], 1⟩ [.connect, .connect, .disconnect]) ∧
    (runOps ⟨some 0, [0], 1⟩ [.connect, .connect, .disconnect]).openHandles.length ≤ 1 :=
  connect_idempotent_single_open ⟨some 0, [0], 1⟩ [.connect, .connect, .disconnect]
    (by unfold connInv; rfl)

end HtsServo
